import Mathlib

/-!
Verification of the Dify-Assistant SSE streaming parser, batch executor,
auth-state holder and plugin upgrade sequencer.

The definitions below are shallow embeddings of the Python source:
  * `src/dify_assistant/streaming/sse_parser.py` (SSEParser)
  * `src/dify_assistant/streaming/events.py` (pydantic event models)
  * `src/dify_assistant/cli/async_console_client.py` (AsyncConsoleClient)
  * `src/dify_assistant/cli/plugin_cmd.py` (upgrade sequencer)

Machine-level conventions: Python `json.loads` is embedded as a fuel-based
recursive-descent JSON reader (`jsonLoads`); Python string operations used by
the parser (`str.strip`, `str.partition`) are embedded over `List Char`;
exceptions are embedded as `Except`/explicit error values; `async` control
flow is embedded as explicit state passing (the semaphore as a transition
system over interleavings).
-/

namespace Dify

/-! ## Python / JSON character helpers -/

/-- The whitespace characters stripped by Python `str.strip()` (ASCII subset;
the rarely seen Unicode space characters are not modelled). -/
def pyWhiteC (c : Char) : Bool :=
  c = ' ' || c = '\t' || c = '\n' || c = '\r' || c = Char.ofNat 11 || c = Char.ofNat 12

/-- JSON (RFC 8259) insignificant whitespace, as skipped by `json.loads`. -/
def jsonWS (c : Char) : Bool :=
  c = ' ' || c = '\t' || c = '\n' || c = '\r'

def skipWs (cs : List Char) : List Char := cs.dropWhile jsonWS

/-- Strip leading and trailing Python whitespace from a character list. -/
def stripList (cs : List Char) : List Char :=
  ((cs.dropWhile pyWhiteC).reverse.dropWhile pyWhiteC).reverse

/-- Embedding of Python `line.strip()`. -/
def pyStrip (s : String) : String := String.mk (stripList s.data)

/-- A string with no leading and no trailing Python whitespace
(`s.strip() == s`), stated in the form the parser lemmas consume. -/
def noEdgeWS (v : String) : Prop :=
  v.data.dropWhile pyWhiteC = v.data ∧ v.data.reverse.dropWhile pyWhiteC = v.data.reverse

instance (v : String) : Decidable (noEdgeWS v) := by unfold noEdgeWS; infer_instance

/-- Does `hay` start with `needle`? -/
def listStartsWith : List Char → List Char → Bool
  | _, [] => true
  | [], _ :: _ => false
  | a :: as, b :: bs => a = b && listStartsWith as bs

/-- Python substring containment (`needle in hay` for strings). -/
def listHasSub (hay needle : List Char) : Bool :=
  listStartsWith hay needle ||
    match hay with
    | [] => false
    | _ :: t => listHasSub t needle

/-! ## JSON values and `json.loads`

`Json` represents the values `json.loads` can produce.  Python floats are kept
as their source lexeme (`Json.float`): no claim depends on float arithmetic,
only on "is an int" / truthiness distinctions.  Object member lists keep the
source order; `getField` implements Python-dict semantics (last duplicate key
wins). -/

inductive Json where
  | null : Json
  | bool : Bool → Json
  | int : Int → Json
  | float : String → Json
  | str : String → Json
  | arr : List Json → Json
  | obj : List (String × Json) → Json

/-- Dictionary lookup with Python duplicate-key semantics (last wins). -/
def getField (o : List (String × Json)) (k : String) : Option Json :=
  match o with
  | [] => none
  | (k2, v) :: rest =>
      match getField rest k with
      | some v2 => some v2
      | none => if k2 = k then some v else none

def lbrace : Char := Char.ofNat 123

def rbrace : Char := Char.ofNat 125

def hexVal (c : Char) : Option Nat :=
  if '0' ≤ c ∧ c ≤ '9' then some (c.toNat - 48)
  else if 'a' ≤ c ∧ c ≤ 'f' then some (c.toNat - 87)
  else if 'A' ≤ c ∧ c ≤ 'F' then some (c.toNat - 55)
  else none

def hex4 (a b c d : Char) : Option Nat := do
  let x1 ← hexVal a
  let x2 ← hexVal b
  let x3 ← hexVal c
  let x4 ← hexVal d
  some (((x1 * 16 + x2) * 16 + x3) * 16 + x4)

def escChar (c : Char) : Option Char :=
  if c = '"' then some '"'
  else if c = '\\' then some '\\'
  else if c = '/' then some '/'
  else if c = 'b' then some (Char.ofNat 8)
  else if c = 'f' then some (Char.ofNat 12)
  else if c = 'n' then some '\n'
  else if c = 'r' then some '\r'
  else if c = 't' then some '\t'
  else none

/-- Body of a JSON string literal, after the opening quote.  Strict mode as in
`json.loads`: raw control characters are rejected.  Surrogate pairs in
`\uXXXX` escapes are combined; a lone surrogate (which Python would keep) is
represented by U+FFFD, the one spot where Lean's `Char` cannot carry the
Python value. -/
def lexStringAux : Nat → List Char → List Char → Option (List Char × List Char)
  | 0, _, _ => none
  | _ + 1, _, [] => none
  | fuel + 1, acc, c :: cs =>
    if c = '"' then some (acc.reverse, cs)
    else if c = '\\' then
      match cs with
      | 'u' :: h1 :: h2 :: h3 :: h4 :: rest =>
        match hex4 h1 h2 h3 h4 with
        | none => none
        | some n =>
          if 0xD800 ≤ n ∧ n ≤ 0xDBFF then
            match rest with
            | '\\' :: 'u' :: g1 :: g2 :: g3 :: g4 :: rest2 =>
              match hex4 g1 g2 g3 g4 with
              | none => none
              | some m =>
                if 0xDC00 ≤ m ∧ m ≤ 0xDFFF then
                  lexStringAux fuel
                    (Char.ofNat (0x10000 + (n - 0xD800) * 0x400 + (m - 0xDC00)) :: acc) rest2
                else lexStringAux fuel (Char.ofNat 0xFFFD :: acc) rest
            | _ => lexStringAux fuel (Char.ofNat 0xFFFD :: acc) rest
          else if 0xDC00 ≤ n ∧ n ≤ 0xDFFF then
            lexStringAux fuel (Char.ofNat 0xFFFD :: acc) rest
          else lexStringAux fuel (Char.ofNat n :: acc) rest
      | e :: rest =>
        match escChar e with
        | some ec => lexStringAux fuel (ec :: acc) rest
        | none => none
      | [] => none
    else if c.toNat < 32 then none
    else lexStringAux fuel (c :: acc) cs

def digitsToNat (ds : List Char) : Nat := ds.foldl (fun a c => a * 10 + (c.toNat - 48)) 0

/-- The integer part of a JSON number: a single `0`, or a nonzero digit
followed by digits (leading zeros are rejected, as in `json.loads`). -/
def lexIntPart : List Char → Option (List Char × List Char)
  | [] => none
  | c :: rest =>
    if c = '0' then some (['0'], rest)
    else if c.isDigit then
      some (c :: rest.takeWhile Char.isDigit, rest.dropWhile Char.isDigit)
    else none

/-- Fractional part `.digits` if present; returns the consumed lexeme. -/
def lexFracPart (cs : List Char) : List Char × List Char :=
  match cs with
  | '.' :: rest =>
    match rest.takeWhile Char.isDigit with
    | [] => ([], cs)
    | ds => ('.' :: ds, rest.dropWhile Char.isDigit)
  | _ => ([], cs)

/-- Exponent part `[eE][+-]?digits` if present; returns the consumed lexeme. -/
def lexExpPart (cs : List Char) : List Char × List Char :=
  match cs with
  | c :: rest =>
    if c = 'e' ∨ c = 'E' then
      let (sgn, rest2) :=
        match rest with
        | s :: r2 => if s = '+' ∨ s = '-' then ([s], r2) else (([] : List Char), rest)
        | [] => ([], rest)
      match rest2.takeWhile Char.isDigit with
      | [] => ([], cs)
      | ds => (c :: (sgn ++ ds), rest2.dropWhile Char.isDigit)
    else ([], cs)
  | [] => ([], cs)

/-- A JSON number token, following the tokenizer regex used by `json.loads`:
`-?(0|[1-9]\d*)(\.\d+)?([eE][+-]?\d+)?`.  Numbers with a fraction or exponent
become Python floats (kept as their lexeme), the rest become ints. -/
def lexNumber (cs : List Char) : Option (Json × List Char) :=
  let (neg, cs1) := match cs with
    | '-' :: t => (true, t)
    | _ => (false, cs)
  match lexIntPart cs1 with
  | none => none
  | some (ids, cs2) =>
    let (fds, cs3) := lexFracPart cs2
    let (eds, cs4) := lexExpPart cs3
    if fds = [] ∧ eds = [] then
      let n : Int := Int.ofNat (digitsToNat ids)
      some (Json.int (if neg then -n else n), cs4)
    else
      some (Json.float (String.mk ((if neg then ['-'] else []) ++ ids ++ fds ++ eds)), cs4)

/-- Parsing mode for the single fueled JSON reader: a whole value, the
element list of an array (accumulator in reverse), or the member list of an
object (accumulator in reverse). -/
inductive PMode where
  | value : PMode
  | elems : List Json → PMode
  | members : List (String × Json) → PMode

/-- One JSON value / array tail / object tail, by recursive descent with fuel.
Mirrors `json.loads`, including its default acceptance of the
`NaN`/`Infinity`/`-Infinity` extensions. -/
def parseJ : Nat → PMode → List Char → Option (Json × List Char)
  | 0, _, _ => none
  | fuel + 1, PMode.value, cs =>
    match cs with
    | 'n' :: 'u' :: 'l' :: 'l' :: rest => some (Json.null, rest)
    | 't' :: 'r' :: 'u' :: 'e' :: rest => some (Json.bool true, rest)
    | 'f' :: 'a' :: 'l' :: 's' :: 'e' :: rest => some (Json.bool false, rest)
    | 'N' :: 'a' :: 'N' :: rest => some (Json.float "NaN", rest)
    | 'I' :: 'n' :: 'f' :: 'i' :: 'n' :: 'i' :: 't' :: 'y' :: rest =>
        some (Json.float "Infinity", rest)
    | '-' :: 'I' :: 'n' :: 'f' :: 'i' :: 'n' :: 'i' :: 't' :: 'y' :: rest =>
        some (Json.float "-Infinity", rest)
    | '"' :: rest =>
        match lexStringAux (rest.length + 1) [] rest with
        | some (scs, rest2) => some (Json.str (String.mk scs), rest2)
        | none => none
    | '[' :: rest => parseJ fuel (PMode.elems []) (skipWs rest)
    | c :: rest =>
        if c = lbrace then parseJ fuel (PMode.members []) (skipWs rest)
        else lexNumber (c :: rest)
    | [] => none
  | fuel + 1, PMode.elems acc, cs =>
    match cs with
    | ']' :: rest => if acc.isEmpty then some (Json.arr [], rest) else none
    | _ =>
      match parseJ fuel PMode.value cs with
      | none => none
      | some (v, rest) =>
        match skipWs rest with
        | ',' :: rest2 => parseJ fuel (PMode.elems (v :: acc)) (skipWs rest2)
        | ']' :: rest2 => some (Json.arr (acc.reverse ++ [v]), rest2)
        | _ => none
  | fuel + 1, PMode.members acc, cs =>
    match cs with
    | [] => none
    | c :: rest =>
      if c = rbrace then (if acc.isEmpty then some (Json.obj [], rest) else none)
      else if c = '"' then
        match lexStringAux (rest.length + 1) [] rest with
        | none => none
        | some (kcs, rest1) =>
          match skipWs rest1 with
          | ':' :: rest3 =>
            match parseJ fuel PMode.value (skipWs rest3) with
            | none => none
            | some (v, rest4) =>
              match skipWs rest4 with
              | ',' :: rest6 =>
                  parseJ fuel (PMode.members ((String.mk kcs, v) :: acc)) (skipWs rest6)
              | c2 :: rest6 =>
                  if c2 = rbrace then some (Json.obj (acc.reverse ++ [(String.mk kcs, v)]), rest6)
                  else none
              | [] => none
          | _ => none
      else none

/-- Embedding of Python `json.loads`: parse one JSON document, allowing
surrounding whitespace, rejecting trailing data. -/
def jsonLoads (s : String) : Option Json :=
  match parseJ (s.length * 2 + 8) PMode.value (skipWs s.data) with
  | some (v, rest) => if (skipWs rest).isEmpty then some v else none
  | none => none

/-! ## Event kinds and pydantic event models (`streaming/events.py`)

`EventKind` is `StreamEventType`: the sixteen event kinds.  `kindOfString`
is lookup in `SSEParser.EVENT_MODELS` (whose keys are exactly the sixteen
enum values).  Each pydantic model class becomes a `…Fields` record plus a
validator; pydantic lax-mode coercions (e.g. numeric strings to int) are not
modelled — validators accept the JSON type the fields declare, with the
models' defaults and `Optional` treatment. -/

inductive EventKind where
  | message | message_end | message_file | message_replace
  | agent_message | agent_thought | tts_message | tts_message_end
  | workflow_started | workflow_finished | node_started | node_finished
  | parallel_branch_started | parallel_branch_finished | error | ping
deriving DecidableEq

/-- `EVENT_MODELS.get` on a string key, and also validation of the
`StreamEventType` enum. -/
def kindOfString (s : String) : Option EventKind :=
  if s = "message" then some EventKind.message
  else if s = "message_end" then some EventKind.message_end
  else if s = "message_file" then some EventKind.message_file
  else if s = "message_replace" then some EventKind.message_replace
  else if s = "agent_message" then some EventKind.agent_message
  else if s = "agent_thought" then some EventKind.agent_thought
  else if s = "tts_message" then some EventKind.tts_message
  else if s = "tts_message_end" then some EventKind.tts_message_end
  else if s = "workflow_started" then some EventKind.workflow_started
  else if s = "workflow_finished" then some EventKind.workflow_finished
  else if s = "node_started" then some EventKind.node_started
  else if s = "node_finished" then some EventKind.node_finished
  else if s = "parallel_branch_started" then some EventKind.parallel_branch_started
  else if s = "parallel_branch_finished" then some EventKind.parallel_branch_finished
  else if s = "error" then some EventKind.error
  else if s = "ping" then some EventKind.ping
  else none

/-- Fields of `MessageEvent` / `AgentMessageEvent` / `MessageReplaceEvent`. -/
structure ChunkFields where
  task_id : String
  message_id : String
  conversation_id : Option String
  answer : String
  created_at : Int

/-- Fields of `MessageEndEvent` (metadata defaults to the empty dict). -/
structure MessageEndFields where
  task_id : String
  message_id : String
  conversation_id : Option String
  metadata : Json

/-- Fields of `MessageFileEvent`. -/
structure MessageFileFields where
  id : String
  type : String
  belongs_to : String
  url : String
  conversation_id : Option String

/-- Fields of `AgentThoughtEvent`. -/
structure AgentThoughtFields where
  id : String
  task_id : String
  message_id : String
  position : Int
  thought : String
  observation : String
  tool : String
  tool_input : String
  created_at : Int
  message_files : List String
  conversation_id : Option String

/-- Fields of `TtsMessageEvent` / `TtsMessageEndEvent`. -/
structure TtsFields where
  task_id : String
  message_id : String
  audio : String
  created_at : Int

/-- Fields of the six workflow-family events. -/
structure WorkflowFields where
  task_id : String
  workflow_run_id : String
  data : Json

/-- Fields of `ErrorEvent` (all optional / defaulted). -/
structure ErrorFields where
  task_id : Option String
  message_id : Option String
  status : Int
  code : String
  message : String

/-- A typed stream event.  The constructor is the pydantic model class that
validated the payload; `ev` is the validated `event` attribute, which comes
from the payload's own `event` member when present (so it can differ from the
class, exactly as in pydantic). -/
inductive StreamEvent where
  | message (ev : EventKind) (f : ChunkFields)
  | message_end (ev : EventKind) (f : MessageEndFields)
  | message_file (ev : EventKind) (f : MessageFileFields)
  | message_replace (ev : EventKind) (f : ChunkFields)
  | agent_message (ev : EventKind) (f : ChunkFields)
  | agent_thought (ev : EventKind) (f : AgentThoughtFields)
  | tts_message (ev : EventKind) (f : TtsFields)
  | tts_message_end (ev : EventKind) (f : TtsFields)
  | workflow_started (ev : EventKind) (f : WorkflowFields)
  | workflow_finished (ev : EventKind) (f : WorkflowFields)
  | node_started (ev : EventKind) (f : WorkflowFields)
  | node_finished (ev : EventKind) (f : WorkflowFields)
  | parallel_branch_started (ev : EventKind) (f : WorkflowFields)
  | parallel_branch_finished (ev : EventKind) (f : WorkflowFields)
  | error (ev : EventKind) (f : ErrorFields)
  | ping (ev : EventKind)

/-- The discriminator of a typed event: which model class produced it. -/
def StreamEvent.kind : StreamEvent → EventKind
  | StreamEvent.message _ _ => EventKind.message
  | StreamEvent.message_end _ _ => EventKind.message_end
  | StreamEvent.message_file _ _ => EventKind.message_file
  | StreamEvent.message_replace _ _ => EventKind.message_replace
  | StreamEvent.agent_message _ _ => EventKind.agent_message
  | StreamEvent.agent_thought _ _ => EventKind.agent_thought
  | StreamEvent.tts_message _ _ => EventKind.tts_message
  | StreamEvent.tts_message_end _ _ => EventKind.tts_message_end
  | StreamEvent.workflow_started _ _ => EventKind.workflow_started
  | StreamEvent.workflow_finished _ _ => EventKind.workflow_finished
  | StreamEvent.node_started _ _ => EventKind.node_started
  | StreamEvent.node_finished _ _ => EventKind.node_finished
  | StreamEvent.parallel_branch_started _ _ => EventKind.parallel_branch_started
  | StreamEvent.parallel_branch_finished _ _ => EventKind.parallel_branch_finished
  | StreamEvent.error _ _ => EventKind.error
  | StreamEvent.ping _ => EventKind.ping

/-- A required `str` field. -/
def reqStr (o : List (String × Json)) (k : String) : Option String :=
  match getField o k with
  | some (Json.str s) => some s
  | _ => none

/-- A required `int` field. -/
def reqInt (o : List (String × Json)) (k : String) : Option Int :=
  match getField o k with
  | some (Json.int n) => some n
  | _ => none

/-- An `Optional[str] = None` field: absent or `null` gives `None`. -/
def optStrF (o : List (String × Json)) (k : String) : Option (Option String) :=
  match getField o k with
  | none => some none
  | some Json.null => some none
  | some (Json.str s) => some (some s)
  | some _ => none

/-- A `str` field with a default: absent gives the default, `null` is
rejected. -/
def strD (o : List (String × Json)) (k : String) (d : String) : Option String :=
  match getField o k with
  | none => some d
  | some (Json.str s) => some s
  | _ => none

/-- An `int` field with a default. -/
def intD (o : List (String × Json)) (k : String) (d : Int) : Option Int :=
  match getField o k with
  | none => some d
  | some (Json.int n) => some n
  | _ => none

/-- A `dict[str, Any]` field defaulting to the empty dict. -/
def dictD (o : List (String × Json)) (k : String) : Option Json :=
  match getField o k with
  | none => some (Json.obj [])
  | some (Json.obj kvs) => some (Json.obj kvs)
  | _ => none

/-- A `list[str]` field defaulting to the empty list. -/
def listStrD (o : List (String × Json)) (k : String) : Option (List String) :=
  match getField o k with
  | none => some []
  | some (Json.arr xs) => xs.mapM (fun j => match j with | Json.str s => some s | _ => none)
  | _ => none

/-- The `event : StreamEventType` attribute: the payload's own `event` member
when present (validated against the enum), else the model class's default. -/
def eventAttr (o : List (String × Json)) (dflt : EventKind) : Option EventKind :=
  match getField o "event" with
  | none => some dflt
  | some (Json.str s) => kindOfString s
  | some _ => none

def chunkF (dflt : EventKind) : Json → Option (EventKind × ChunkFields)
  | Json.obj o => do
      let ev ← eventAttr o dflt
      let t ← reqStr o "task_id"
      let m ← reqStr o "message_id"
      let c ← optStrF o "conversation_id"
      let a ← reqStr o "answer"
      let ca ← reqInt o "created_at"
      some (ev, ⟨t, m, c, a, ca⟩)
  | _ => none

def endF : Json → Option (EventKind × MessageEndFields)
  | Json.obj o => do
      let ev ← eventAttr o EventKind.message_end
      let t ← reqStr o "task_id"
      let m ← reqStr o "message_id"
      let c ← optStrF o "conversation_id"
      let meta ← dictD o "metadata"
      some (ev, ⟨t, m, c, meta⟩)
  | _ => none

def fileF : Json → Option (EventKind × MessageFileFields)
  | Json.obj o => do
      let ev ← eventAttr o EventKind.message_file
      let i ← reqStr o "id"
      let ty ← reqStr o "type"
      let b ← reqStr o "belongs_to"
      let u ← reqStr o "url"
      let c ← optStrF o "conversation_id"
      some (ev, ⟨i, ty, b, u, c⟩)
  | _ => none

def thoughtF : Json → Option (EventKind × AgentThoughtFields)
  | Json.obj o => do
      let ev ← eventAttr o EventKind.agent_thought
      let i ← reqStr o "id"
      let t ← reqStr o "task_id"
      let m ← reqStr o "message_id"
      let pos ← reqInt o "position"
      let th ← reqStr o "thought"
      let ob ← strD o "observation" ""
      let tl ← strD o "tool" ""
      let ti ← strD o "tool_input" ""
      let ca ← reqInt o "created_at"
      let mf ← listStrD o "message_files"
      let c ← optStrF o "conversation_id"
      some (ev, ⟨i, t, m, pos, th, ob, tl, ti, ca, mf, c⟩)
  | _ => none

def ttsF (reqAudio : Bool) (dflt : EventKind) : Json → Option (EventKind × TtsFields)
  | Json.obj o => do
      let ev ← eventAttr o dflt
      let t ← reqStr o "task_id"
      let m ← reqStr o "message_id"
      let a ← (if reqAudio then reqStr o "audio" else strD o "audio" "")
      let ca ← reqInt o "created_at"
      some (ev, ⟨t, m, a, ca⟩)
  | _ => none

def wfF (dflt : EventKind) : Json → Option (EventKind × WorkflowFields)
  | Json.obj o => do
      let ev ← eventAttr o dflt
      let t ← reqStr o "task_id"
      let w ← reqStr o "workflow_run_id"
      let d ← dictD o "data"
      some (ev, ⟨t, w, d⟩)
  | _ => none

def errF : Json → Option (EventKind × ErrorFields)
  | Json.obj o => do
      let ev ← eventAttr o EventKind.error
      let t ← optStrF o "task_id"
      let m ← optStrF o "message_id"
      let st ← intD o "status" 500
      let cd ← strD o "code" ""
      let ms ← strD o "message" ""
      some (ev, ⟨t, m, st, cd, ms⟩)
  | _ => none

def pingF : Json → Option EventKind
  | Json.obj o => eventAttr o EventKind.ping
  | _ => none

/-- `model_class.model_validate(event_data)` for each of the sixteen model
classes of `EVENT_MODELS`; `none` is pydantic's `ValidationError`. -/
def modelValidate : EventKind → Json → Option StreamEvent
  | EventKind.message, j => (chunkF EventKind.message j).map fun p => StreamEvent.message p.1 p.2
  | EventKind.message_end, j => (endF j).map fun p => StreamEvent.message_end p.1 p.2
  | EventKind.message_file, j => (fileF j).map fun p => StreamEvent.message_file p.1 p.2
  | EventKind.message_replace, j =>
      (chunkF EventKind.message_replace j).map fun p => StreamEvent.message_replace p.1 p.2
  | EventKind.agent_message, j =>
      (chunkF EventKind.agent_message j).map fun p => StreamEvent.agent_message p.1 p.2
  | EventKind.agent_thought, j => (thoughtF j).map fun p => StreamEvent.agent_thought p.1 p.2
  | EventKind.tts_message, j =>
      (ttsF true EventKind.tts_message j).map fun p => StreamEvent.tts_message p.1 p.2
  | EventKind.tts_message_end, j =>
      (ttsF false EventKind.tts_message_end j).map fun p => StreamEvent.tts_message_end p.1 p.2
  | EventKind.workflow_started, j =>
      (wfF EventKind.workflow_started j).map fun p => StreamEvent.workflow_started p.1 p.2
  | EventKind.workflow_finished, j =>
      (wfF EventKind.workflow_finished j).map fun p => StreamEvent.workflow_finished p.1 p.2
  | EventKind.node_started, j =>
      (wfF EventKind.node_started j).map fun p => StreamEvent.node_started p.1 p.2
  | EventKind.node_finished, j =>
      (wfF EventKind.node_finished j).map fun p => StreamEvent.node_finished p.1 p.2
  | EventKind.parallel_branch_started, j =>
      (wfF EventKind.parallel_branch_started j).map fun p => StreamEvent.parallel_branch_started p.1 p.2
  | EventKind.parallel_branch_finished, j =>
      (wfF EventKind.parallel_branch_finished j).map fun p => StreamEvent.parallel_branch_finished p.1 p.2
  | EventKind.error, j => (errF j).map fun p => StreamEvent.error p.1 p.2
  | EventKind.ping, j => (pingF j).map fun ev => StreamEvent.ping ev

/-! ## `SSEParser._create_event` (`sse_parser.py:114`)

The streaming exceptions of `exceptions/errors.py` are embedded with the
diagnostic payload the claims are about (`event_data`, `timeout_seconds`,
`reconnect_attempts`); their human-readable message strings are not modelled.
`Except.error` is a raised Python exception. -/

inductive PyErr where
  /-- `StreamingError(message, event_data=...)`. -/
  | streaming (event_data : Option String)
  /-- `StreamingTimeoutError(message, timeout_seconds=...)`. -/
  | streamingTimeout (timeout_seconds : Nat)
  /-- `StreamingConnectionError(message, reconnect_attempts=...)`. -/
  | streamingConn (reconnect_attempts : Nat)

/-- Python `"event" in event_data` on an arbitrary `json.loads` result:
key membership for dicts, element membership for lists, substring test for
strings, and `TypeError` (`Except.error`) for the scalar types. -/
def pyInEvent : Json → Except Unit Bool
  | Json.obj o => Except.ok (getField o "event").isSome
  | Json.arr xs => Except.ok (xs.any fun j => match j with | Json.str s => s = "event" | _ => false)
  | Json.str s => Except.ok (listHasSub s.data "event".data)
  | _ => Except.error ()

/-- Python `event_data["event"]`, reached only after the membership test
succeeded: dict lookup for dicts, `TypeError` for strings and lists. -/
def pySubscriptEvent : Json → Except Unit Json
  | Json.obj o =>
      match getField o "event" with
      | some v => Except.ok v
      | none => Except.error ()
  | _ => Except.error ()

/-- Python `EVENT_MODELS.get(actual_type)` where `actual_type` is an
arbitrary JSON value: `TypeError` for unhashable keys (lists, dicts), a miss
for hashable non-strings (the dict's keys are all strings), string lookup
otherwise. -/
def eventModelsGet : Json → Except Unit (Option EventKind)
  | Json.arr _ => Except.error ()
  | Json.obj _ => Except.error ()
  | Json.str s => Except.ok (kindOfString s)
  | _ => Except.ok none

/-- The `PingEvent()` constructed by the unknown-kind fallback. -/
def pingDefault : StreamEvent := StreamEvent.ping EventKind.ping

/-- The body of `_create_event` after `json.loads`: model lookup and
validation, with the unknown-kind fallback.  An `Except.error ()` is any
exception inside the `try` block — pydantic `ValidationError`, or a
`TypeError` from the membership/lookup on a non-dict payload. -/
def createEventCore (event_type : String) (event_data : Json) : Except Unit StreamEvent :=
  match kindOfString event_type with
  | some k =>
    match modelValidate k event_data with
    | some ev => Except.ok ev
    | none => Except.error ()
  | none =>
    match pyInEvent event_data with
    | Except.error _ => Except.error ()
    | Except.ok false => Except.ok pingDefault
    | Except.ok true =>
      match pySubscriptEvent event_data with
      | Except.error _ => Except.error ()
      | Except.ok actual =>
        match eventModelsGet actual with
        | Except.error _ => Except.error ()
        | Except.ok none => Except.ok pingDefault
        | Except.ok (some k) =>
          match modelValidate k event_data with
          | some ev => Except.ok ev
          | none => Except.error ()

/-- Embedding of `SSEParser._create_event(event_type, data)`.  Every failure
inside the `try` block — `json.JSONDecodeError` from decoding, or any
exception from `createEventCore` — is caught and re-raised as
`StreamingError(..., event_data=data)`. -/
def createEvent (event_type : String) (data : String) : Except PyErr StreamEvent :=
  match (if data ≠ "" then jsonLoads data else some (Json.obj [])) with
  | none => Except.error (PyErr.streaming (some data))
  | some event_data =>
    match createEventCore event_type event_data with
    | Except.ok ev => Except.ok ev
    | Except.error _ => Except.error (PyErr.streaming (some data))

/-! ## The SSE line loop (`parse_sync` / `parse_async`) -/

/-- Split a character list at its first `':'`, as `str.partition(":")` does
when a colon is present. -/
def splitFirstColon : List Char → Option (List Char × List Char)
  | [] => none
  | c :: cs =>
      if c = ':' then some ([], cs)
      else (splitFirstColon cs).map fun p => (c :: p.1, p.2)

/-- Embedding of `SSEParser._parse_event_line`: partition at the first colon
and drop exactly one leading space of the value; a line without a colon is a
bare field name with empty value. -/
def stripLeadSpace (cs : List Char) : List Char :=
  match cs with
  | ' ' :: rest => rest
  | _ => cs

def parseEventLine (line : String) : String × String :=
  match splitFirstColon line.data with
  | some (f, vcs) => (String.mk f, String.mk (stripLeadSpace vcs))
  | none => (line, "")

/-- The per-`SSEParser`-instance state (`_last_event_id`,
`_reconnect_attempts`). -/
structure ParserSession where
  last_event_id : Option String
  reconnect_attempts : Nat
deriving DecidableEq

/-- The state after `__init__` (and after `reset()`). -/
def initSession : ParserSession := ⟨none, 0⟩

/-- The three mutable working values of one `parse_sync`/`parse_async`
invocation. -/
structure WorkingState where
  event_type : String
  event_id : String
  data_lines : List String
deriving DecidableEq

/-- The working values at the start of a parse invocation. -/
def ws0 : WorkingState := ⟨"", "", []⟩

/-- What one pull from the response's line iterator can do: produce a line,
or raise `httpx.ReadError`. -/
inductive LineItem where
  | line (s : String)
  | readErr
deriving DecidableEq

/-- Result of consuming a whole parse generator: the events yielded in order,
the final session state, and — for a generator that terminated by raising —
the exception. -/
inductive ParseOutcome where
  | ok (events : List StreamEvent) (sess : ParserSession)
  | err (events : List StreamEvent) (sess : ParserSession) (e : PyErr)

/-- `"\n".join(data_lines)`. -/
def joinNl (ls : List String) : String := String.intercalate "\n" ls

/-- The event type passed to `_create_event`: `event_type or "message"`. -/
def effTypeStr (event_type : String) : String := if event_type = "" then "message" else event_type

/-- One loop iteration of `parse_sync`/`parse_async` on a produced line.
On the blank-line (dispatch) branch the source updates `_last_event_id`
before the `yield`, so a failing `_create_event` still leaves the id updated
while the reconnect counter is only reset after a successful yield. -/
def processLine (sess : ParserSession) (ws : WorkingState) (raw : String) :
    Except (ParserSession × PyErr) (ParserSession × WorkingState × Option StreamEvent) :=
  if pyStrip raw = "" then
    match ws.data_lines with
    | [] => Except.ok (sess, ws, none)
    | _ =>
      match createEvent (effTypeStr ws.event_type) (joinNl ws.data_lines) with
      | Except.error e =>
          Except.error
            ((if ws.event_id ≠ "" then { sess with last_event_id := some ws.event_id } else sess), e)
      | Except.ok ev =>
          Except.ok
            ({ (if ws.event_id ≠ "" then { sess with last_event_id := some ws.event_id } else sess)
                with reconnect_attempts := 0 }, ws0, some ev)
  else
    if (parseEventLine (pyStrip raw)).1 = "event" then
      Except.ok (sess, { ws with event_type := (parseEventLine (pyStrip raw)).2 }, none)
    else if (parseEventLine (pyStrip raw)).1 = "data" then
      Except.ok (sess, { ws with data_lines := ws.data_lines ++ [(parseEventLine (pyStrip raw)).2] }, none)
    else if (parseEventLine (pyStrip raw)).1 = "id" then
      Except.ok (sess, { ws with event_id := (parseEventLine (pyStrip raw)).2 }, none)
    else Except.ok (sess, ws, none)

/-- The `parse_sync` loop over the line source, including the
flush-of-accumulated-data at end of source (which performs no session
update) and the `httpx.ReadError` handler (which increments the reconnect
counter and raises `StreamingConnectionError` carrying it). -/
def runLines (sess : ParserSession) (ws : WorkingState) (acc : List StreamEvent) :
    List LineItem → ParseOutcome
  | [] =>
    match ws.data_lines with
    | [] => ParseOutcome.ok acc sess
    | _ =>
      match createEvent (effTypeStr ws.event_type) (joinNl ws.data_lines) with
      | Except.error e => ParseOutcome.err acc sess e
      | Except.ok ev => ParseOutcome.ok (acc ++ [ev]) sess
  | LineItem.readErr :: _ =>
      ParseOutcome.err acc { sess with reconnect_attempts := sess.reconnect_attempts + 1 }
        (PyErr.streamingConn (sess.reconnect_attempts + 1))
  | LineItem.line raw :: rest =>
    match processLine sess ws raw with
    | Except.error (sess1, e) => ParseOutcome.err acc sess1 e
    | Except.ok (sess1, ws1, none) => runLines sess1 ws1 acc rest
    | Except.ok (sess1, ws1, some ev) => runLines sess1 ws1 (acc ++ [ev]) rest

/-- Embedding of `SSEParser.parse_sync(response)`, fully consumed. -/
def parseSync (sess : ParserSession) (items : List LineItem) : ParseOutcome :=
  runLines sess ws0 [] items

/-- A line read from the async response together with the time the read took
(abstract units).  `parse_async` reads lines through
`_iter_lines_with_timeout`. -/
structure TimedLine where
  duration : Nat
  item : LineItem
deriving DecidableEq

/-- Embedding of `SSEParser._iter_lines_with_timeout` (`sse_parser.py:233`):
despite its name and its docstring (promising `asyncio.TimeoutError` when the
timeout is exceeded), its body is a plain `async for line in
response.aiter_lines(): yield line` — it never consults `event_timeout`, so
every line is forwarded whatever its read took. -/
def iterLinesWithTimeout (event_timeout : Nat) (src : List TimedLine) : List LineItem :=
  let _ := event_timeout
  src.map TimedLine.item

/-- Embedding of `SSEParser.parse_async(response)`, fully consumed.  The
`except asyncio.TimeoutError` arm of the source (which would produce
`StreamingTimeoutError(timeout_seconds=event_timeout)`) is unreachable
through `_iter_lines_with_timeout`, which raises only what
`response.aiter_lines()` raises (`httpx` errors, modelled by
`LineItem.readErr`). -/
def parseAsync (event_timeout : Nat) (sess : ParserSession) (src : List TimedLine) :
    ParseOutcome :=
  parseSync sess (iterLinesWithTimeout event_timeout src)

/-- Does an outcome end in `StreamingTimeoutError`? -/
def ParseOutcome.isTimeout : ParseOutcome → Bool
  | ParseOutcome.err _ _ (PyErr.streamingTimeout _) => true
  | _ => false

/-! ## Parallel batch operations (`async_console_client.py:427-537`)

Exceptions raised by a single-item operation are embedded as `PyExn`; an
operation is a function into `Except PyExn α`.  `asyncio.gather` over the
per-item coroutines returns their results in task order, and each
`…_single` helper catches `Exception` and returns a tuple instead of
raising, so each parallel method is a `List.map` of its per-item helper. -/

inductive PyExn where
  /-- `httpx.HTTPStatusError` with the response's status code. -/
  | httpStatus (code : Nat)
  /-- any other exception (carrying its message). -/
  | other (msg : String)
deriving DecidableEq

/-- Python truthiness of a `json.loads` value (used by
`dict(result) if result else None` in `get_app`). -/
def Json.truthy : Json → Bool
  | Json.null => false
  | Json.bool b => b
  | Json.int n => n ≠ 0
  | Json.float raw =>
      if raw = "NaN" ∨ raw = "Infinity" ∨ raw = "-Infinity" then true
      else (raw.data.takeWhile fun c => c ≠ 'e' ∧ c ≠ 'E').any fun c => c.isDigit && c ≠ '0'
  | Json.str s => s ≠ ""
  | Json.arr xs => ¬ xs.isEmpty
  | Json.obj o => ¬ o.isEmpty

/-- Python `dict(result)` on a truthy `json.loads` value: identity on dicts,
a dict built from an iterable of pairs when that is possible with
JSON-representable (string) keys, `TypeError`/`ValueError` otherwise. -/
def pyDict : Json → Except PyExn Json
  | Json.obj o => Except.ok (Json.obj o)
  | Json.arr xs =>
      match xs.mapM (fun j => match j with
        | Json.arr [Json.str k, v] => some (k, v)
        | _ => none) with
      | some kvs => Except.ok (Json.obj kvs)
      | none => Except.error (PyExn.other "TypeError")
  | _ => Except.error (PyExn.other "TypeError")

/-- Embedding of `AsyncConsoleClient.get_app(app_id)` over a `_request`
oracle: a 404 `HTTPStatusError` becomes `None`, a falsy body becomes `None`,
other exceptions propagate. -/
def get_app (req : String → Except PyExn Json) (app_id : String) :
    Except PyExn (Option Json) :=
  match req ("/console/api/apps/" ++ app_id) with
  | Except.ok j =>
      if j.truthy then
        match pyDict j with
        | Except.ok d => Except.ok (some d)
        | Except.error e => Except.error e
      else Except.ok none
  | Except.error (PyExn.httpStatus c) =>
      if c = 404 then Except.ok none else Except.error (PyExn.httpStatus c)
  | Except.error e => Except.error e

/-- `export_single` inside `export_apps_parallel`. -/
def exportSingleRes (exportOp : String → Except PyExn String) (app_id : String) :
    String × Option String × Option PyExn :=
  match exportOp app_id with
  | Except.ok y => (app_id, some y, none)
  | Except.error e => (app_id, none, some e)

/-- Embedding of `AsyncConsoleClient.export_apps_parallel`. -/
def export_apps_parallel (exportOp : String → Except PyExn String) (app_ids : List String) :
    List (String × Option String × Option PyExn) :=
  app_ids.map (exportSingleRes exportOp)

/-- `import_single` inside `import_apps_parallel` (items are
`(filename, yaml_content)` pairs). -/
def importSingleRes (importOp : String → Except PyExn Json) (item : String × String) :
    String × Option Json × Option PyExn :=
  match importOp item.2 with
  | Except.ok r => (item.1, some r, none)
  | Except.error e => (item.1, none, some e)

/-- Embedding of `AsyncConsoleClient.import_apps_parallel`. -/
def import_apps_parallel (importOp : String → Except PyExn Json)
    (yaml_contents : List (String × String)) : List (String × Option Json × Option PyExn) :=
  yaml_contents.map (importSingleRes importOp)

/-- `get_single` inside `get_apps_info_parallel`: when `get_app` returns
`None` (absent app), the tuple is `(app_id, None, None)`. -/
def getSingleRes (req : String → Except PyExn Json) (app_id : String) :
    String × Option Json × Option PyExn :=
  match get_app req app_id with
  | Except.ok r => (app_id, r, none)
  | Except.error e => (app_id, none, some e)

/-- Embedding of `AsyncConsoleClient.get_apps_info_parallel`. -/
def get_apps_info_parallel (req : String → Except PyExn Json) (app_ids : List String) :
    List (String × Option Json × Option PyExn) :=
  app_ids.map (getSingleRes req)

/-- `delete_single` inside `delete_apps_parallel` (`delete_app` returns
`True` on success). -/
def deleteSingleRes (deleteOp : String → Except PyExn Unit) (app_id : String) :
    String × Bool × Option PyExn :=
  match deleteOp app_id with
  | Except.ok _ => (app_id, true, none)
  | Except.error e => (app_id, false, some e)

/-- Embedding of `AsyncConsoleClient.delete_apps_parallel`. -/
def delete_apps_parallel (deleteOp : String → Except PyExn Unit) (app_ids : List String) :
    List (String × Bool × Option PyExn) :=
  app_ids.map (deleteSingleRes deleteOp)

/-! ## The admission gate (`_get_semaphore` / `_request`, lines 95-195)

Every batch item runs `async with self._get_semaphore(): await
client.request(...)` inside `_request`; `asyncio.gather` schedules all items
up front.  This is embedded as a transition system over interleavings: each
task is `waiting` (scheduled, awaiting the semaphore), `inFlight` (acquired,
request outstanding) or `done` (request finished, slot released);
`asyncio.Semaphore(max_concurrency)` is the counter `sem`, decremented by a
successful acquire (enabled only while positive) and incremented on
release. -/

inductive Phase where
  | waiting | inFlight | done
deriving DecidableEq

structure BatchState where
  sem : Nat
  tasks : List Phase
deriving DecidableEq

/-- All `n` gathered tasks scheduled, none admitted, semaphore fresh at the
client's `max_concurrency`. -/
def initBatch (C n : Nat) : BatchState := ⟨C, List.replicate n Phase.waiting⟩

/-- The interleaving steps the Python event loop can take. -/
inductive BatchStep : BatchState → BatchState → Prop where
  /-- `semaphore.acquire()` completes for waiting task `i`: only enabled
  while the counter is positive; the counter is decremented. -/
  | acquire (s : BatchState) (i : Nat) (h : s.tasks.get? i = some Phase.waiting)
      (hs : 0 < s.sem) : BatchStep s ⟨s.sem - 1, s.tasks.set i Phase.inFlight⟩
  /-- task `i`'s request finishes (normally or by exception) and the
  `async with` releases the semaphore. -/
  | finish (s : BatchState) (i : Nat) (h : s.tasks.get? i = some Phase.inFlight) :
      BatchStep s ⟨s.sem + 1, s.tasks.set i Phase.done⟩

/-- Number of requests currently in flight. -/
def inFlightCount (s : BatchState) : Nat :=
  s.tasks.countP fun p => decide (p = Phase.inFlight)

/-- States an execution of the batch can reach. -/
def BatchReachable (C n : Nat) (s : BatchState) : Prop :=
  Relation.ReflTransGen BatchStep (initBatch C n) s

/-! ## Auth/session state (`__init__` / `login` / `close` / `_request`) -/

/-- The token state of one `AsyncConsoleClient` plus whether an HTTP client
object is currently held. -/
structure AuthState where
  access_token : Option String
  csrf_token : Option String
  has_client : Bool
deriving DecidableEq

/-- State after `__init__` (lines 74-78). -/
def authInit : AuthState := ⟨none, none, false⟩

/-- What the login HTTP exchange produced, as `login()` consumes it. -/
structure LoginResponse where
  status_ok : Bool
  body_access_token : Option String
  cookie_access_token : Option String
  cookie_csrf_token : Option String
deriving DecidableEq

/-- Embedding of `AsyncConsoleClient.login()` (lines 121-158):
`raise_for_status` on a failed response leaves the tokens untouched;
otherwise the access token is taken from the body, else from the cookie, the
CSRF token from its cookie, and a missing access token raises `ValueError`
(after the assignments, as in the source). -/
def login (st : AuthState) (r : LoginResponse) : AuthState × Option PyExn :=
  let st1 := { st with has_client := true }
  if ¬ r.status_ok then (st1, some (PyExn.httpStatus 401))
  else
    let access := match r.body_access_token with
      | some t => some t
      | none => r.cookie_access_token
    let st2 := { st1 with access_token := access, csrf_token := r.cookie_csrf_token }
    match access with
    | none => (st2, some (PyExn.other "Failed to obtain access token from login response"))
    | some _ => (st2, none)

/-- Embedding of `AsyncConsoleClient.close()` (lines 107-111): the HTTP
client is closed and dropped; the token fields are not touched. -/
def close (st : AuthState) : AuthState := { st with has_client := false }

/-- The prefix of `_request` (lines 160-195) up to the network call: with no
access token it raises `RuntimeError` before any network activity; the
returned list is the network calls performed by this prefix. -/
def requestAttempt (st : AuthState) : Except PyExn Unit × List String :=
  match st.access_token with
  | none => (Except.error (PyExn.other "Not logged in. Call login() first."), [])
  | some _ => (Except.ok (), ["request"])

/-! ## Plugin upgrade sequencer (`plugin_cmd.py`) -/

/-- One entry of `plugins_to_upgrade`. -/
structure PluginSpec where
  name : String
  installation_id : Option String
  plugin_unique_identifier : Option String
deriving DecidableEq

/-- A console-API call issued while upgrading one plugin. -/
inductive PluginCall where
  | uninstall (installation_id : String)
  | install (plugin_unique_identifier : String)
deriving DecidableEq

/-- Embedding of `upgrade_single` inside `_upgrade_plugins_parallel`
(`plugin_cmd.py:761-790`): result tuple plus the trace of console calls
attempted, in order.  The `except` handler around the
uninstall-then-install pair attempts the compensating
`install_plugin_from_marketplace([old_id])` whenever `installation_id` is
set — including when the uninstall itself was what failed. -/
def upgrade_single (uninstallOp : String → Except PyExn Unit)
    (installOp : String → Except PyExn Unit) (latest_map : String → Option String)
    (p : PluginSpec) : (String × Bool × Option PyExn) × List PluginCall :=
  match latest_map p.name with
  | none => ((p.name, false, some (PyExn.other "Could not fetch latest version from marketplace")), [])
  | some latest_id =>
    let old_id := p.plugin_unique_identifier.getD p.name
    match p.installation_id with
    | some iid =>
      match uninstallOp iid with
      | Except.error e =>
          ((p.name, false, some e), [PluginCall.uninstall iid, PluginCall.install old_id])
      | Except.ok _ =>
        match installOp latest_id with
        | Except.ok _ =>
            ((p.name, true, none), [PluginCall.uninstall iid, PluginCall.install latest_id])
        | Except.error e =>
            ((p.name, false, some e),
              [PluginCall.uninstall iid, PluginCall.install latest_id, PluginCall.install old_id])
    | none =>
      match installOp latest_id with
      | Except.ok _ => ((p.name, true, none), [PluginCall.install latest_id])
      | Except.error e => ((p.name, false, some e), [PluginCall.install latest_id])

/-- Embedding of the body of the per-plugin loop of
`_upgrade_plugins_serial` (`plugin_cmd.py:690-738`): whether the plugin was
reported upgraded, plus the trace of console calls attempted.  Identical
control flow: the `except` block's rollback runs whenever `installation_id`
is set, regardless of which of the two steps raised. -/
def upgradeSerialStep (uninstallOp : String → Except PyExn Unit)
    (installOp : String → Except PyExn Unit) (latest_id : Option String)
    (p : PluginSpec) : Bool × List PluginCall :=
  match latest_id with
  | none => (false, [])
  | some lid =>
    let old_id := p.plugin_unique_identifier.getD p.name
    match p.installation_id with
    | some iid =>
      match uninstallOp iid with
      | Except.error _ => (false, [PluginCall.uninstall iid, PluginCall.install old_id])
      | Except.ok _ =>
        match installOp lid with
        | Except.ok _ => (true, [PluginCall.uninstall iid, PluginCall.install lid])
        | Except.error _ =>
            (false, [PluginCall.uninstall iid, PluginCall.install lid, PluginCall.install old_id])
    | none =>
      match installOp lid with
      | Except.ok _ => (true, [PluginCall.install lid])
      | Except.error _ => (false, [PluginCall.install lid])

/-! ## Well-formed SSE frames

A frame, in the sense of the specification, is a sequence of `event:`/`id:`
lines and at least one `data:` line, terminated by a blank line.  Field
values carry no surrounding whitespace (the parser strips each raw line). -/

inductive FrameLine where
  | ev (v : String)
  | id (v : String)
  | data (v : String)
deriving DecidableEq

/-- The raw text of a frame line, in `field:value` form (the SSE framing the
parser consumes; the optional single space after the colon adds nothing once
values are whitespace-clean). -/
def renderL : FrameLine → String
  | FrameLine.ev v => "event:" ++ v
  | FrameLine.id v => "id:" ++ v
  | FrameLine.data v => "data:" ++ v

/-- The value of a frame line. -/
def FrameLine.val : FrameLine → String
  | FrameLine.ev v => v
  | FrameLine.id v => v
  | FrameLine.data v => v

/-- How one field line updates the parser's working values. -/
def wsUpd (ws : WorkingState) : FrameLine → WorkingState
  | FrameLine.ev v => { ws with event_type := v }
  | FrameLine.id v => { ws with event_id := v }
  | FrameLine.data v => { ws with data_lines := ws.data_lines ++ [v] }

structure Frame where
  lines : List FrameLine
deriving DecidableEq

/-- The working values after the frame's field lines have been scanned. -/
def Frame.workingState (f : Frame) : WorkingState := f.lines.foldl wsUpd ws0

/-- The last `event:` value of the frame, or `""` when there is none. -/
def Frame.eventType (f : Frame) : String := f.workingState.event_type

/-- The last `id:` value of the frame, or `""` when there is none. -/
def Frame.eventId (f : Frame) : String := f.workingState.event_id

/-- The `data:` values of the frame, in order. -/
def Frame.datas (f : Frame) : List String := f.workingState.data_lines

/-- The accumulated data lines joined with newlines, as handed to
`_create_event`. -/
def Frame.joined (f : Frame) : String := joinNl f.datas

/-- The event type the dispatch uses (`"message"` when no `event:` line was
seen). -/
def Frame.effType (f : Frame) : String := effTypeStr f.eventType

/-- A specification-well-formed frame: whitespace-clean field values and at
least one `data:` line. -/
def Frame.WF (f : Frame) : Prop :=
  (∀ l ∈ f.lines, noEdgeWS l.val) ∧ f.datas ≠ []

instance (f : Frame) : Decidable f.WF := by unfold Frame.WF; infer_instance

/-- The frame as the parser receives it: its field lines and the
terminating blank line. -/
def Frame.render (f : Frame) : List LineItem :=
  f.lines.map (fun l => LineItem.line (renderL l)) ++ [LineItem.line ""]

/-- The frame as received from a server that omitted the final blank line. -/
def Frame.renderNoBlank (f : Frame) : List LineItem :=
  f.lines.map fun l => LineItem.line (renderL l)

/-- The typed event a frame produces, when `_create_event` succeeds on it. -/
def frameEvent (f : Frame) : Option StreamEvent :=
  match createEvent f.effType f.joined with
  | Except.ok e => some e
  | Except.error _ => none

def frameEvents (fs : List Frame) : Option (List StreamEvent) := fs.mapM frameEvent

/-- The session after a blank-line dispatch of frame `f`: `_last_event_id`
updated when an `id:` was seen, reconnect counter reset. -/
def sessAfter (sess : ParserSession) (f : Frame) : ParserSession :=
  ⟨if f.eventId ≠ "" then some f.eventId else sess.last_event_id, 0⟩

/-- The payload condition under which the unknown-kind fallback is safe: the
object's `event` member, when present, is not an unhashable container and
does not resolve to a known kind. -/
def internalEventSafe (o : List (String × Json)) : Bool :=
  match getField o "event" with
  | none => true
  | some (Json.str s) => (kindOfString s).isNone
  | some (Json.arr _) => false
  | some (Json.obj _) => false
  | some _ => true

/-! # Theorems

First the helper lemmas about stripping, line splitting and the parse loop;
then, at the end of the file, one theorem per specification claim. -/

theorem dropWhile_cons_false {p : Char → Bool} {a : Char} {l : List Char} (h : p a = false) :
    List.dropWhile p (a :: l) = a :: l := by
  simp [List.dropWhile, h]

theorem dropWhile_self_head_false {p : Char → Bool} {a : Char} {t : List Char}
    (h : List.dropWhile p (a :: t) = a :: t) : p a = false := by
  cases hpa : p a with
  | false => rfl
  | true =>
    exfalso
    have h1 : List.dropWhile p t = a :: t := by
      simpa [List.dropWhile, hpa] using h
    have h2 := (List.dropWhile_sublist p (l := t)).length_le
    rw [h1] at h2
    simp at h2

theorem dropWhile_self_append {p : Char → Bool} {xs ys : List Char}
    (hx : List.dropWhile p xs = xs) (hy : List.dropWhile p ys = ys) :
    List.dropWhile p (xs ++ ys) = xs ++ ys := by
  cases xs with
  | nil => simpa using hy
  | cons a t =>
    have ha : p a = false := dropWhile_self_head_false hx
    rw [List.cons_append]
    exact dropWhile_cons_false ha

theorem stripList_eq_self {cs : List Char} (h1 : cs.dropWhile pyWhiteC = cs)
    (h2 : cs.reverse.dropWhile pyWhiteC = cs.reverse) : stripList cs = cs := by
  unfold stripList
  rw [h1, h2, List.reverse_reverse]

/-- A rendered field line survives `str.strip()` untouched when its value is
whitespace-clean. -/
theorem pyStrip_renderL (l : FrameLine) (h : noEdgeWS l.val) :
    pyStrip (renderL l) = renderL l := by
  have key : ∀ (pre : String) (v : String),
      pre.data.dropWhile pyWhiteC = pre.data →
      pre.data.reverse.dropWhile pyWhiteC = pre.data.reverse →
      noEdgeWS v →
      pyStrip (pre ++ v) = pre ++ v := by
    intro pre v hp1 hp2 hv
    show String.mk (stripList (pre ++ v).data) = pre ++ v
    have hdata : (pre ++ v).data = pre.data ++ v.data := rfl
    rw [hdata]
    rw [stripList_eq_self (dropWhile_self_append hp1 hv.1)
      (by rw [List.reverse_append]; exact dropWhile_self_append hv.2 hp2)]
    rfl
  cases l with
  | ev v => exact key "event:" v (by decide) (by decide) h
  | id v => exact key "id:" v (by decide) (by decide) h
  | data v => exact key "data:" v (by decide) (by decide) h

theorem splitFirstColon_at (pre v : List Char) (hpre : ':' ∉ pre) :
    splitFirstColon (pre ++ ':' :: v) = some (pre, v) := by
  induction pre with
  | nil => simp [splitFirstColon]
  | cons a t ih =>
    have ha : ¬ a = ':' := fun hc => hpre (hc ▸ List.mem_cons_self a t)
    show splitFirstColon (a :: (t ++ ':' :: v)) = some (a :: t, v)
    simp only [splitFirstColon, if_neg ha]
    rw [ih fun hm => hpre (List.mem_cons_of_mem a hm)]
    rfl

/-- A whitespace-clean value does not start with a space, so the SSE
one-space strip leaves it alone. -/
theorem stripOneSpace_clean (v : String) (h : noEdgeWS v) :
    stripLeadSpace v.data = v.data := by
  cases hv : v.data with
  | nil => rfl
  | cons c t =>
    have hc : pyWhiteC c = false := dropWhile_self_head_false (by rw [← hv]; exact h.1)
    have hcs : ¬ c = ' ' := by
      intro he
      rw [he] at hc
      exact absurd hc (by decide)
    unfold stripLeadSpace
    split
    · rename_i heq
      rw [List.cons_eq_cons] at heq
      exact absurd heq.1 hcs
    · rfl

/-- `_parse_event_line` on a rendered field line recovers the field name and
the clean value. -/
theorem parseEventLine_renderL (l : FrameLine) (h : noEdgeWS l.val) :
    parseEventLine (renderL l) =
      (match l with
        | FrameLine.ev _ => "event"
        | FrameLine.id _ => "id"
        | FrameLine.data _ => "data", l.val) := by
  cases l with
  | ev v =>
    show parseEventLine ("event:" ++ v) = ("event", v)
    have hdata : ("event:" ++ v).data = ['e', 'v', 'e', 'n', 't'] ++ ':' :: v.data := rfl
    unfold parseEventLine
    rw [hdata, splitFirstColon_at _ _ (by decide)]
    simp only [stripOneSpace_clean v h]
  | id v =>
    show parseEventLine ("id:" ++ v) = ("id", v)
    have hdata : ("id:" ++ v).data = ['i', 'd'] ++ ':' :: v.data := rfl
    unfold parseEventLine
    rw [hdata, splitFirstColon_at _ _ (by decide)]
    simp only [stripOneSpace_clean v h]
  | data v =>
    show parseEventLine ("data:" ++ v) = ("data", v)
    have hdata : ("data:" ++ v).data = ['d', 'a', 't', 'a'] ++ ':' :: v.data := rfl
    unfold parseEventLine
    rw [hdata, splitFirstColon_at _ _ (by decide)]
    simp only [stripOneSpace_clean v h]

theorem renderL_ne_empty (l : FrameLine) : renderL l ≠ "" := by
  intro hc
  have := congrArg String.data hc
  cases l <;> simp [renderL] at this

/-- Scanning a rendered field line updates exactly the matching working
value. -/
theorem processLine_field (sess : ParserSession) (ws : WorkingState) (l : FrameLine)
    (h : noEdgeWS l.val) :
    processLine sess ws (renderL l) = Except.ok (sess, wsUpd ws l, none) := by
  unfold processLine
  rw [pyStrip_renderL l h, if_neg (renderL_ne_empty l), parseEventLine_renderL l h]
  cases l with
  | ev v =>
    rw [if_pos rfl]
    rfl
  | id v =>
    rw [if_neg (by decide : ¬ ("id" : String) = "event"),
      if_neg (by decide : ¬ ("id" : String) = "data"), if_pos rfl]
    rfl
  | data v =>
    rw [if_neg (by decide : ¬ ("data" : String) = "event"), if_pos rfl]
    rfl

/-- Scanning a block of rendered field lines folds the working values. -/
theorem runLines_fields (ls : List FrameLine) (h : ∀ l ∈ ls, noEdgeWS l.val)
    (sess : ParserSession) (ws : WorkingState) (acc : List StreamEvent)
    (rest : List LineItem) :
    runLines sess ws acc (ls.map (fun l => LineItem.line (renderL l)) ++ rest) =
      runLines sess (ls.foldl wsUpd ws) acc rest := by
  induction ls generalizing ws with
  | nil => rfl
  | cons l t ih =>
    rw [List.map_cons, List.cons_append, List.foldl_cons]
    show runLines sess ws acc (LineItem.line (renderL l) :: _) = _
    simp only [runLines, processLine_field sess ws l (h l (List.mem_cons_self l t))]
    exact ih (fun l2 hm => h l2 (List.mem_cons_of_mem l hm)) (wsUpd ws l)

theorem pyStrip_empty : pyStrip "" = "" := rfl

/-- A blank line with data accumulated and a decodable payload dispatches one
event: `_last_event_id` updated when an id was seen, working values reset,
reconnect counter reset. -/
theorem runLines_blank_ok (sess : ParserSession) (ws : WorkingState) (acc : List StreamEvent)
    (rest : List LineItem) (e : StreamEvent) (hd : ws.data_lines ≠ [])
    (he : createEvent (effTypeStr ws.event_type) (joinNl ws.data_lines) = Except.ok e) :
    runLines sess ws acc (LineItem.line "" :: rest) =
      runLines
        { (if ws.event_id ≠ "" then { sess with last_event_id := some ws.event_id } else sess)
            with reconnect_attempts := 0 }
        ws0 (acc ++ [e]) rest := by
  have hp : processLine sess ws "" =
      Except.ok
        ({ (if ws.event_id ≠ "" then { sess with last_event_id := some ws.event_id } else sess)
            with reconnect_attempts := 0 }, ws0, some e) := by
    unfold processLine
    rw [pyStrip_empty, if_pos rfl]
    split
    · rename_i heq
      exact absurd heq hd
    · simp only [he]
  simp only [runLines, hp]

/-- A blank line whose dispatch fails in `_create_event` terminates the
sequence with the raised error; `_last_event_id` was already updated, the
reconnect counter was not touched. -/
theorem runLines_blank_err (sess : ParserSession) (ws : WorkingState) (acc : List StreamEvent)
    (rest : List LineItem) (er : PyErr) (hd : ws.data_lines ≠ [])
    (he : createEvent (effTypeStr ws.event_type) (joinNl ws.data_lines) = Except.error er) :
    runLines sess ws acc (LineItem.line "" :: rest) =
      ParseOutcome.err acc
        (if ws.event_id ≠ "" then { sess with last_event_id := some ws.event_id } else sess)
        er := by
  have hp : processLine sess ws "" =
      Except.error
        ((if ws.event_id ≠ "" then { sess with last_event_id := some ws.event_id } else sess),
          er) := by
    unfold processLine
    rw [pyStrip_empty, if_pos rfl]
    split
    · rename_i heq
      exact absurd heq hd
    · simp only [he]
  simp only [runLines, hp]

theorem dispatch_sess_eq (sess : ParserSession) (f : Frame) :
    { (if f.workingState.event_id ≠ "" then
          { sess with last_event_id := some f.workingState.event_id } else sess)
        with reconnect_attempts := 0 } = sessAfter sess f := by
  unfold sessAfter Frame.eventId
  by_cases h : f.workingState.event_id ≠ "" <;> simp [h]

/-- Consuming one well-formed frame whose payload decodes appends exactly its
event and moves the session to `sessAfter`. -/
theorem runLines_frame (f : Frame) (hWF : f.WF) (e : StreamEvent)
    (he : frameEvent f = some e) (sess : ParserSession) (acc : List StreamEvent)
    (rest : List LineItem) :
    runLines sess ws0 acc (f.render ++ rest) =
      runLines (sessAfter sess f) ws0 (acc ++ [e]) rest := by
  have hce : createEvent f.effType f.joined = Except.ok e := by
    unfold frameEvent at he
    split at he
    · rename_i e2 h2
      injection he with he
      rw [← he]
      exact h2
    · cases he
  unfold Frame.render
  rw [List.append_assoc, runLines_fields f.lines hWF.1]
  rw [List.singleton_append]
  have hws : List.foldl wsUpd ws0 f.lines = f.workingState := rfl
  rw [hws]
  rw [runLines_blank_ok _ _ _ _ e hWF.2 hce, dispatch_sess_eq]

/-- Consuming a list of decodable well-formed frames appends exactly their
events, in order. -/
theorem runLines_frames (fs : List Frame) (hWF : ∀ f ∈ fs, f.WF)
    (es : List StreamEvent) (hes : frameEvents fs = some es) (sess : ParserSession)
    (acc : List StreamEvent) :
    runLines sess ws0 acc ((fs.map Frame.render).flatten) =
      ParseOutcome.ok (acc ++ es) (fs.foldl sessAfter sess) := by
  induction fs generalizing sess acc es with
  | nil =>
    cases hes
    simp [runLines, ws0]
  | cons f t ih =>
    unfold frameEvents at hes
    rw [List.mapM_cons] at hes
    cases hf : frameEvent f with
    | none => rw [hf] at hes; cases hes
    | some e =>
      rw [hf] at hes
      cases ht : t.mapM frameEvent with
      | none => rw [ht] at hes; cases hes
      | some es2 =>
        rw [ht] at hes
        have hes2 : es = e :: es2 := by
          cases hes
          rfl
        subst hes2
        show runLines sess ws0 acc (f.render ++ (t.map Frame.render).flatten) = _
        rw [runLines_frame f (hWF f (List.mem_cons_self f t)) e hf sess acc]
        rw [List.foldl_cons]
        rw [ih (fun f2 hm => hWF f2 (List.mem_cons_of_mem f hm)) es2 ht (sessAfter sess f)
          (acc ++ [e])]
        simp

/-- The model class a payload validates against determines the event's
discriminator. -/
theorem modelValidate_kind (k : EventKind) (j : Json) (e : StreamEvent)
    (h : modelValidate k j = some e) : e.kind = k := by
  cases k <;>
    · simp only [modelValidate, Option.map_eq_some'] at h
      obtain ⟨p, _, rfl⟩ := h
      rfl

/-- `_create_event`'s core with a known event type yields an event of exactly
that kind. -/
theorem createEventCore_known_kind (t : String) (j : Json) (k : EventKind) (e : StreamEvent)
    (hk : kindOfString t = some k) (h : createEventCore t j = Except.ok e) : e.kind = k := by
  unfold createEventCore at h
  rw [hk] at h
  have h2 : (match modelValidate k j with
      | some ev => Except.ok ev
      | none => (Except.error () : Except Unit StreamEvent)) = Except.ok e := h
  cases hm : modelValidate k j with
  | none =>
    rw [hm] at h2
    cases h2
  | some ev =>
    rw [hm] at h2
    injection h2 with h3
    subst h3
    exact modelValidate_kind _ _ _ hm

/-- `_create_event` with a known event type yields an event of exactly that
kind. -/
theorem createEvent_known_kind (t d : String) (k : EventKind) (e : StreamEvent)
    (hk : kindOfString t = some k) (h : createEvent t d = Except.ok e) : e.kind = k := by
  unfold createEvent at h
  split at h
  · cases h
  · split at h
    · rename_i ev hev
      injection h with h2
      subst h2
      exact createEventCore_known_kind _ _ _ _ hk hev
    · cases h

/-- Every exception `_create_event` raises is a `StreamingError` carrying the
raw data string. -/
theorem createEvent_error_shape (t d : String) (e : PyErr)
    (h : createEvent t d = Except.error e) : e = PyErr.streaming (some d) := by
  unfold createEvent at h
  split at h
  · injection h with h2
    exact h2.symm
  · split at h
    · cases h
    · injection h with h2
      exact h2.symm

/-- `_create_event` on a non-empty data string that is not valid JSON raises
`StreamingError` carrying exactly that string. -/
theorem createEvent_bad_json (t d : String) (hd : d ≠ "") (hj : jsonLoads d = none) :
    createEvent t d = Except.error (PyErr.streaming (some d)) := by
  unfold createEvent
  rw [if_pos hd, hj]

/-- `_create_event` with an unknown declared type and a JSON-object payload
whose `event` member (if any) is a scalar not resolving to a known kind
returns `PingEvent()` without raising. -/
theorem createEvent_unknown_ping (t d : String) (o : List (String × Json))
    (ht : kindOfString t = none) (hj : jsonLoads d = some (Json.obj o))
    (hsafe : internalEventSafe o = true) : createEvent t d = Except.ok pingDefault := by
  have hd : d ≠ "" := by
    intro hde
    rw [hde, show jsonLoads "" = (none : Option Json) from rfl] at hj
    cases hj
  have hcore : createEventCore t (Json.obj o) = Except.ok pingDefault := by
    unfold createEventCore
    rw [ht]
    unfold internalEventSafe at hsafe
    cases hg : getField o "event" with
    | none => simp [pyInEvent, hg]
    | some jv =>
      rw [hg] at hsafe
      cases jv with
      | str s =>
        simp only [pyInEvent, hg, Option.isSome_some]
        simp [pySubscriptEvent, hg, eventModelsGet, Option.isNone_iff_eq_none.mp hsafe]
      | arr xs => cases hsafe
      | obj kvs => cases hsafe
      | null =>
        simp only [pyInEvent, hg, Option.isSome_some]
        simp [pySubscriptEvent, hg, eventModelsGet]
      | bool b =>
        simp only [pyInEvent, hg, Option.isSome_some]
        simp [pySubscriptEvent, hg, eventModelsGet]
      | int n =>
        simp only [pyInEvent, hg, Option.isSome_some]
        simp [pySubscriptEvent, hg, eventModelsGet]
      | float r =>
        simp only [pyInEvent, hg, Option.isSome_some]
        simp [pySubscriptEvent, hg, eventModelsGet]
  unfold createEvent
  rw [if_pos hd, hj]
  simp only [hcore]

/-- Every exception the scanning of one line raises is a `StreamingError`
carrying the joined accumulated data. -/
theorem processLine_error_shape (sess : ParserSession) (ws : WorkingState) (raw : String)
    (s1 : ParserSession) (e : PyErr) (h : processLine sess ws raw = Except.error (s1, e)) :
    e = PyErr.streaming (some (joinNl ws.data_lines)) := by
  unfold processLine at h
  split at h
  · split at h
    · cases h
    · split at h
      · rename_i er her2
        injection h with h2
        rw [Prod.mk.injEq] at h2
        exact h2.2.symm.trans (createEvent_error_shape _ _ _ her2)
      · cases h
  · split at h
    · cases h
    · split at h
      · cases h
      · split at h
        · cases h
        · cases h

/-- No path through the parse loop produces `StreamingTimeoutError`. -/
theorem runLines_not_timeout (items : List LineItem) (sess : ParserSession)
    (ws : WorkingState) (acc : List StreamEvent) :
    (runLines sess ws acc items).isTimeout = false := by
  induction items generalizing sess ws acc with
  | nil =>
    unfold runLines
    split
    · rfl
    · split
      · rename_i e he
        rw [createEvent_error_shape _ _ _ he]
        rfl
      · rfl
  | cons it rest ih =>
    cases it with
    | readErr => rfl
    | line raw =>
      unfold runLines
      split
      · rename_i s1 e h
        rw [processLine_error_shape _ _ _ _ _ h]
        rfl
      · apply ih
      · apply ih

/-! ### The admission-gate invariant -/

theorem countP_set_inFlight (l : List Phase) (i : Nat) (a b : Phase) (h : l.get? i = some a) :
    (l.set i b).countP (fun p => decide (p = Phase.inFlight)) +
        (if a = Phase.inFlight then 1 else 0) =
      l.countP (fun p => decide (p = Phase.inFlight)) +
        (if b = Phase.inFlight then 1 else 0) := by
  induction l generalizing i with
  | nil => cases h
  | cons x t ih =>
    cases i with
    | zero =>
      injection h with h
      subst h
      simp only [List.set, List.countP_cons]
      by_cases hx : x = Phase.inFlight <;> by_cases hb : b = Phase.inFlight <;>
        simp [hx, hb]
    | succ j =>
      have h2 : t.get? j = some a := h
      simp only [List.set, List.countP_cons]
      have := ih j h2
      by_cases hx : x = Phase.inFlight <;> simp [hx] <;> omega

/-- The invariant tying the semaphore counter to the number of in-flight
requests. -/
def batchInv (C : Nat) (s : BatchState) : Prop := s.sem + inFlightCount s = C

theorem batchInv_init (C n : Nat) : batchInv C (initBatch C n) := by
  unfold batchInv initBatch inFlightCount
  have : ∀ m : Nat, (List.replicate m Phase.waiting).countP
      (fun p => decide (p = Phase.inFlight)) = 0 := by
    intro m
    induction m with
    | zero => rfl
    | succ j ihm => simp [List.replicate, List.countP_cons, ihm]
  simp [this]

theorem batchInv_step {C : Nat} {s s' : BatchState} (hinv : batchInv C s)
    (hstep : BatchStep s s') : batchInv C s' := by
  cases hstep with
  | acquire i h hs =>
    unfold batchInv inFlightCount at hinv ⊢
    dsimp only
    have hc := countP_set_inFlight s.tasks i Phase.waiting Phase.inFlight h
    simp at hc
    omega
  | finish i h =>
    unfold batchInv inFlightCount at hinv ⊢
    dsimp only
    have hc := countP_set_inFlight s.tasks i Phase.inFlight Phase.done h
    simp at hc
    omega

theorem reachable_inv {C n : Nat} {s : BatchState} (h : BatchReachable C n s) :
    batchInv C s := by
  induction h with
  | refl => exact batchInv_init C n
  | tail h1 hstep ih => exact batchInv_step ih hstep

/-! ### Frames of known kinds -/

/-- The typed events of a decodable frame list carry the frames' effective
event types as their discriminators. -/
theorem frameEvents_kinds (fs : List Frame) (es : List StreamEvent)
    (hes : frameEvents fs = some es)
    (hkind : ∀ f ∈ fs, (kindOfString f.effType).isSome) :
    List.Forall₂ (fun f e => kindOfString f.effType = some e.kind) fs es := by
  induction fs generalizing es with
  | nil =>
    cases hes
    exact List.Forall₂.nil
  | cons f t ih =>
    unfold frameEvents at hes
    rw [List.mapM_cons] at hes
    cases hf : frameEvent f with
    | none =>
      rw [hf] at hes
      cases hes
    | some e =>
      rw [hf] at hes
      cases ht : t.mapM frameEvent with
      | none =>
        rw [ht] at hes
        cases hes
      | some es2 =>
        rw [ht] at hes
        have hcons : es = e :: es2 := by
          cases hes
          rfl
        subst hcons
        refine List.Forall₂.cons ?_ (ih es2 ht fun g hm => hkind g (List.mem_cons_of_mem f hm))
        obtain ⟨k, hk⟩ := Option.isSome_iff_exists.mp (hkind f (List.mem_cons_self f t))
        have hce : createEvent f.effType f.joined = Except.ok e := by
          unfold frameEvent at hf
          split at hf
          · rename_i e2 h2
            injection hf with hf
            rw [← hf]
            exact h2
          · cases hf
        rw [hk, createEvent_known_kind _ _ _ _ hk hce]

/-- End-of-source flush: accumulated data lines are emitted as one final
event and the session is left untouched. -/
theorem runLines_end_flush (sess : ParserSession) (ws : WorkingState)
    (acc : List StreamEvent) (e : StreamEvent) (hd : ws.data_lines ≠ [])
    (he : createEvent (effTypeStr ws.event_type) (joinNl ws.data_lines) = Except.ok e) :
    runLines sess ws acc [] = ParseOutcome.ok (acc ++ [e]) sess := by
  unfold runLines
  split
  · rename_i heq
    exact absurd heq hd
  · rw [he]

theorem forall₂_map_self {α β : Type} (g : α → β) (P : α → β → Prop) (l : List α)
    (h : ∀ a ∈ l, P a (g a)) : List.Forall₂ P l (l.map g) := by
  induction l with
  | nil => exact List.Forall₂.nil
  | cons a t ih =>
    exact List.Forall₂.cons (h a (List.mem_cons_self a t))
      (ih fun b hb => h b (List.mem_cons_of_mem a hb))

/-! ## The claims -/

/-- C3: for every sequence of well-formed SSE frames — zero or more
`event:`/`id:` lines, one or more `data:` lines, a terminating blank line —
whose effective event type (the last `event:` value, defaulting to
`"message"` when none was seen before the blank line) is one of the sixteen
known kinds and whose data lines, joined with newline, decode and validate
as a payload for that kind, the parser emits exactly one typed event per
frame, in input order, and each event's discriminator (the model class
selected) equals the frame's effective event type. -/
theorem c3_wellformed_frames_typed_events (fs : List Frame) (es : List StreamEvent)
    (sess : ParserSession) (hWF : ∀ f ∈ fs, f.WF)
    (hkind : ∀ f ∈ fs, (kindOfString f.effType).isSome)
    (hes : frameEvents fs = some es) :
    (∃ sess2, parseSync sess ((fs.map Frame.render).flatten) = ParseOutcome.ok es sess2) ∧
      es.length = fs.length ∧
      List.Forall₂ (fun f e => kindOfString f.effType = some e.kind) fs es := by
  have h1 := runLines_frames fs hWF es hes sess []
  have h2 := frameEvents_kinds fs es hes hkind
  exact ⟨⟨fs.foldl sessAfter sess, h1⟩, h2.length_eq.symm, h2⟩

/-- C3 witness: a frame with only `id:`/`data:` lines produces a `message`
event, and a `ping` frame follows it, in order. -/
theorem c3_wellformed_frames_typed_events_witness :
    ∃ sess2,
      parseSync initSession
          (([Frame.mk [FrameLine.id "abc123",
              FrameLine.data "\x7b\"task_id\":\"t\",\"message_id\":\"m\",\"answer\":\"Hel\",\"created_at\":1\x7d"],
            Frame.mk [FrameLine.ev "ping", FrameLine.data "\x7b\x7d"]].map Frame.render).flatten) =
        ParseOutcome.ok
          [StreamEvent.message EventKind.message ⟨"t", "m", none, "Hel", 1⟩,
            StreamEvent.ping EventKind.ping] sess2 :=
  (c3_wellformed_frames_typed_events
    [Frame.mk [FrameLine.id "abc123",
        FrameLine.data "\x7b\"task_id\":\"t\",\"message_id\":\"m\",\"answer\":\"Hel\",\"created_at\":1\x7d"],
      Frame.mk [FrameLine.ev "ping", FrameLine.data "\x7b\x7d"]]
    [StreamEvent.message EventKind.message ⟨"t", "m", none, "Hel", 1⟩,
      StreamEvent.ping EventKind.ping]
    initSession (by decide) (by decide) rfl).1

/-- C6: whenever the line source ends while data lines are accumulated (no
trailing blank line was seen) and the joined data lines decode, the parser
still emits them as one final typed event, after everything already
yielded. -/
theorem c6_flush_on_end (sess : ParserSession) (ws : WorkingState)
    (acc : List StreamEvent) (e : StreamEvent) (hd : ws.data_lines ≠ [])
    (he : createEvent (effTypeStr ws.event_type) (joinNl ws.data_lines) = Except.ok e) :
    runLines sess ws acc [] = ParseOutcome.ok (acc ++ [e]) sess :=
  runLines_end_flush sess ws acc e hd he

/-- C6 witness: a stream ending right after its `data:` line still yields the
final event. -/
theorem c6_flush_on_end_witness :
    runLines initSession ⟨"ping", "", ["\x7b\x7d"]⟩ [] [] =
      ParseOutcome.ok [StreamEvent.ping EventKind.ping] initSession :=
  c6_flush_on_end initSession ⟨"ping", "", ["\x7b\x7d"]⟩ [] (StreamEvent.ping EventKind.ping)
    (by decide) rfl

/-- C10: a final event emitted by the end-of-stream flush leaves
`last_event_id` and the reconnect counter exactly as they were — even when an
`id:` line preceded the final data lines — while an event delimited by a
blank line updates `last_event_id` (when an id was seen) and resets the
reconnect counter to zero. -/
theorem c10_flush_state_unchanged (sess : ParserSession) (f : Frame) (e : StreamEvent)
    (hWF : f.WF) (he : frameEvent f = some e) :
    parseSync sess f.renderNoBlank = ParseOutcome.ok [e] sess ∧
      (f.eventId ≠ "" →
        parseSync sess f.render = ParseOutcome.ok [e] ⟨some f.eventId, 0⟩) := by
  have hce : createEvent f.effType f.joined = Except.ok e := by
    unfold frameEvent at he
    split at he
    · rename_i e2 h2
      injection he with he
      rw [← he]
      exact h2
    · cases he
  constructor
  · unfold parseSync Frame.renderNoBlank
    rw [show (f.lines.map fun l => LineItem.line (renderL l)) =
        (f.lines.map fun l => LineItem.line (renderL l)) ++ [] from (List.append_nil _).symm]
    rw [runLines_fields f.lines hWF.1]
    have hws : List.foldl wsUpd ws0 f.lines = f.workingState := rfl
    rw [hws]
    exact runLines_end_flush sess f.workingState [] e hWF.2 hce
  · intro hid
    unfold parseSync
    rw [show f.render = f.render ++ [] from (List.append_nil _).symm]
    rw [runLines_frame f hWF e (by unfold frameEvent; rw [hce]) sess [] []]
    unfold sessAfter
    rw [if_pos hid]
    rfl

/-- C10 witness: with `id: xyz` before the final un-delimited data lines the
flush leaves the session untouched, while the blank-delimited version sets
`last_event_id := xyz` and resets the counter. -/
theorem c10_flush_state_unchanged_witness :
    parseSync ⟨some "old", 7⟩
        (Frame.renderNoBlank (Frame.mk [FrameLine.id "xyz", FrameLine.ev "ping",
          FrameLine.data "\x7b\x7d"])) =
      ParseOutcome.ok [StreamEvent.ping EventKind.ping] ⟨some "old", 7⟩ ∧
    parseSync ⟨some "old", 7⟩
        (Frame.render (Frame.mk [FrameLine.id "xyz", FrameLine.ev "ping",
          FrameLine.data "\x7b\x7d"])) =
      ParseOutcome.ok [StreamEvent.ping EventKind.ping] ⟨some "xyz", 0⟩ := by
  have h := c10_flush_state_unchanged ⟨some "old", 7⟩
    (Frame.mk [FrameLine.id "xyz", FrameLine.ev "ping", FrameLine.data "\x7b\x7d"])
    (StreamEvent.ping EventKind.ping) (by decide) rfl
  exact ⟨h.1, h.2 (by decide)⟩

/-- C5 counterexample: the frame `event:ping` / `data:` (empty value) / blank
line accumulates a data payload joining to the empty string — which is not
valid JSON — yet the parser emits a `PingEvent` and raises nothing, because
an empty accumulated payload skips JSON decoding entirely. -/
theorem c5_counterexample :
    parseSync initSession
        [LineItem.line "event:ping", LineItem.line "data:", LineItem.line ""] =
      ParseOutcome.ok [StreamEvent.ping EventKind.ping] initSession ∧
      jsonLoads "" = none :=
  ⟨rfl, rfl⟩

/-- C5 amended: for every well-formed frame whose accumulated data lines join
to a NON-EMPTY string that is not valid JSON, the parse raises
`StreamingError` carrying exactly the raw joined string and the sequence
terminates with no event from that frame (an empty joined string instead
skips JSON decoding and is treated as an empty payload). -/
theorem c5_malformed_json_amended (sess : ParserSession) (f : Frame) (hWF : f.WF)
    (hne : f.joined ≠ "") (hbad : jsonLoads f.joined = none) :
    ∃ sess2, parseSync sess f.render =
      ParseOutcome.err [] sess2 (PyErr.streaming (some f.joined)) := by
  refine ⟨(if f.workingState.event_id ≠ "" then
      { sess with last_event_id := some f.workingState.event_id } else sess), ?_⟩
  unfold parseSync Frame.render
  rw [runLines_fields f.lines hWF.1]
  have hws : List.foldl wsUpd ws0 f.lines = f.workingState := rfl
  rw [hws]
  exact runLines_blank_err sess f.workingState [] [] _ hWF.2
    (createEvent_bad_json _ _ hne hbad)

/-- C5 amended witness: `data:not json` raises `StreamingError` carrying
`"not json"`. -/
theorem c5_malformed_json_amended_witness :
    ∃ sess2,
      parseSync initSession (Frame.render (Frame.mk [FrameLine.data "not json"])) =
        ParseOutcome.err [] sess2 (PyErr.streaming (some "not json")) :=
  c5_malformed_json_amended initSession (Frame.mk [FrameLine.data "not json"])
    (by decide) (by decide) rfl

/-- C4 counterexample: the frame `event:foo` / `data:5` / blank line has an
unknown declared type and a valid JSON payload (`5`) with no internal `event`
field, yet the parser raises `StreamingError` instead of yielding a
`PingEvent`: the membership test `"event" in 5` is a `TypeError`. -/
theorem c4_counterexample :
    parseSync initSession
        [LineItem.line "event:foo", LineItem.line "data:5", LineItem.line ""] =
      ParseOutcome.err [] initSession (PyErr.streaming (some "5")) ∧
      jsonLoads "5" = some (Json.int 5) ∧ kindOfString "foo" = none :=
  ⟨rfl, rfl, rfl⟩

/-- C4 amended: for every well-formed frame whose effective event type is not
one of the sixteen known kinds and whose joined data decode to a JSON
OBJECT whose `event` member (if any) is a scalar that does not resolve to a
known kind, the parser yields exactly one `PingEvent` and raises nothing. -/
theorem c4_unknown_event_ping_amended (sess : ParserSession) (f : Frame)
    (o : List (String × Json)) (hWF : f.WF) (ht : kindOfString f.effType = none)
    (hj : jsonLoads f.joined = some (Json.obj o)) (hsafe : internalEventSafe o = true) :
    ∃ sess2, parseSync sess f.render = ParseOutcome.ok [pingDefault] sess2 := by
  refine ⟨sessAfter sess f, ?_⟩
  have hfe : frameEvent f = some pingDefault := by
    unfold frameEvent
    rw [createEvent_unknown_ping f.effType f.joined o ht hj hsafe]
  unfold parseSync
  rw [show f.render = f.render ++ [] from (List.append_nil _).symm]
  rw [runLines_frame f hWF pingDefault hfe sess [] []]
  rfl

/-- C4 amended witness: `event:foo` with object payload `\x7b"a":1\x7d`
degrades to `PingEvent`. -/
theorem c4_unknown_event_ping_amended_witness :
    ∃ sess2,
      parseSync initSession
          (Frame.render (Frame.mk [FrameLine.ev "foo", FrameLine.data "\x7b\"a\":1\x7d"])) =
        ParseOutcome.ok [pingDefault] sess2 :=
  c4_unknown_event_ping_amended initSession
    (Frame.mk [FrameLine.ev "foo", FrameLine.data "\x7b\"a\":1\x7d"]) [("a", Json.int 1)]
    (by decide) (by decide) rfl (by decide)

/-- C7: the configured `event_timeout` is never applied to reads: whenever
some read of the next line exceeds it, `parse_async` still behaves exactly as
if all reads were instantaneous (every line is forwarded by
`_iter_lines_with_timeout`, despite its docstring), and the outcome never
carries `StreamingTimeoutError`; `parse_sync` has no timeout logic at all. -/
theorem c7_timeout_never_applied (event_timeout : Nat) (sess : ParserSession)
    (src : List TimedLine) (hslow : ∃ t ∈ src, event_timeout < t.duration) :
    parseAsync event_timeout sess src = parseSync sess (src.map TimedLine.item) ∧
      (parseAsync event_timeout sess src).isTimeout = false :=
  ⟨rfl, runLines_not_timeout (src.map TimedLine.item) sess ws0 []⟩

/-- C7 witness: a read taking 1000 units against a 60-unit timeout raises no
timeout failure and the event is delivered as usual. -/
theorem c7_timeout_never_applied_witness :
    parseAsync 60 initSession
        [⟨0, LineItem.line "data:\x7b\x7d"⟩, ⟨1000, LineItem.line ""⟩] =
      parseSync initSession [LineItem.line "data:\x7b\x7d", LineItem.line ""] ∧
      (parseAsync 60 initSession
        [⟨0, LineItem.line "data:\x7b\x7d"⟩, ⟨1000, LineItem.line ""⟩]).isTimeout = false :=
  c7_timeout_never_applied 60 initSession
    [⟨0, LineItem.line "data:\x7b\x7d"⟩, ⟨1000, LineItem.line ""⟩] (by decide)

/-- C8: when the uninstall step of a plugin upgrade fails, both the parallel
and the serial paths report the plugin failed and never install the new
version, but — against the claim and the code's own comment ("Try to
reinstall old version if we uninstalled it") — they DO attempt the
compensating reinstall of the original identifier: the call trace contains
`install old_id` right after the failed uninstall. -/
theorem c8_rollback_attempted_on_uninstall_failure :
    upgrade_single (fun _ => Except.error (PyExn.other "uninstall boom"))
        (fun _ => Except.ok ()) (fun _ => some "plug:2.0.0")
        ⟨"plug", some "inst-1", some "plug:1.0.0"⟩ =
      (("plug", false, some (PyExn.other "uninstall boom")),
        [PluginCall.uninstall "inst-1", PluginCall.install "plug:1.0.0"]) ∧
      upgradeSerialStep (fun _ => Except.error (PyExn.other "uninstall boom"))
        (fun _ => Except.ok ()) (some "plug:2.0.0")
        ⟨"plug", some "inst-1", some "plug:1.0.0"⟩ =
      (false, [PluginCall.uninstall "inst-1", PluginCall.install "plug:1.0.0"]) :=
  ⟨rfl, rfl⟩

/-- C9 counterexample: after construction, a successful login and `close()`,
both tokens are still held — `close()` only disposes the HTTP client and does
not clear them, unlike the claim's "cleared again by close". -/
theorem c9_counterexample :
    (close (login authInit ⟨true, some "tok", none, some "csrf"⟩).1).access_token =
        some "tok" ∧
      (close (login authInit ⟨true, some "tok", none, some "csrf"⟩).1).csrf_token =
        some "csrf" ∧
      (login authInit ⟨true, some "tok", none, some "csrf"⟩).2 = none :=
  ⟨rfl, rfl, rfl⟩

/-- C9 amended: both tokens are unset at construction; a login that completes
without error holds an access token; a login failing its HTTP status check
leaves both tokens unchanged; `close` does NOT clear the tokens (it only
drops the HTTP client); and a request issued with no access token fails fast
with an error before any network call. -/
theorem c9_auth_lifecycle_amended :
    (authInit.access_token = none ∧ authInit.csrf_token = none) ∧
      (∀ st r, (login st r).2 = none → (login st r).1.access_token.isSome) ∧
      (∀ st r, ¬ r.status_ok →
        (login st r).1.access_token = st.access_token ∧
          (login st r).1.csrf_token = st.csrf_token) ∧
      (∀ st, (close st).access_token = st.access_token ∧
        (close st).csrf_token = st.csrf_token) ∧
      (∀ st, st.access_token = none →
        (requestAttempt st).2 = [] ∧
          (requestAttempt st).1 =
            Except.error (PyExn.other "Not logged in. Call login() first.")) := by
  refine ⟨⟨rfl, rfl⟩, ?_, ?_, fun st => ⟨rfl, rfl⟩, ?_⟩
  · intro st r h
    unfold login at h ⊢
    by_cases hs : r.status_ok
    · rw [if_neg (by simpa using hs)] at h ⊢
      cases hb : r.body_access_token with
      | some t => simp [hb]
      | none =>
        cases hc : r.cookie_access_token with
        | some t => simp [hb, hc]
        | none => simp [hb, hc] at h
    · rw [if_pos (by simpa using hs)] at h
      cases h
  · intro st r h
    unfold login
    rw [if_pos (by simpa using h)]
    exact ⟨rfl, rfl⟩
  · intro st h
    unfold requestAttempt
    rw [h]
    exact ⟨rfl, rfl⟩

/-- C9 amended witness: the fail-fast guard and the post-login token at
concrete values. -/
theorem c9_auth_lifecycle_amended_witness :
    (login authInit ⟨true, some "tok", none, none⟩).1.access_token.isSome ∧
      (requestAttempt authInit).2 = [] :=
  ⟨c9_auth_lifecycle_amended.2.1 authInit ⟨true, some "tok", none, none⟩ rfl,
    (c9_auth_lifecycle_amended.2.2.2.2 authInit rfl).1⟩

/-- C1 counterexample: in the get-info batch an absent app (404) produces the
tuple `(app_id, None, None)` — neither the success value nor the error is
populated, violating "exactly one of the success value and the error is
populated". -/
theorem c1_counterexample :
    get_apps_info_parallel (fun _ => Except.error (PyExn.httpStatus 404)) ["app-1"] =
      [("app-1", none, none)] :=
  rfl

/-- C1 amended: every parallel batch operation returns exactly one result
tuple per input item, in input order (empty input gives an empty result
list), the batch call itself never raises (it is a total function of the
per-item operation), and each item's tuple is computed from that item's
operation alone — so one item's exception is recorded in its own tuple and
cannot affect a sibling.  The error field is populated exactly when the
item's operation raised for export and import; for delete the success flag
is `True` exactly when no error is recorded; for get-info at most one of the
two is populated, and an absent app (404 or empty body) yields a tuple with
neither populated. -/
theorem c1_batch_results_amended (exportOp : String → Except PyExn String)
    (importOp : String → Except PyExn Json) (req : String → Except PyExn Json)
    (deleteOp : String → Except PyExn Unit) (app_ids : List String)
    (yamls : List (String × String)) :
    (export_apps_parallel exportOp [] = [] ∧ import_apps_parallel importOp [] = [] ∧
      get_apps_info_parallel req [] = [] ∧ delete_apps_parallel deleteOp [] = []) ∧
      List.Forall₂ (fun a t => t.1 = a ∧ (t.2.2 = none ↔ t.2.1.isSome) ∧
          t = exportSingleRes exportOp a)
        app_ids (export_apps_parallel exportOp app_ids) ∧
      List.Forall₂ (fun it t => t.1 = it.1 ∧ (t.2.2 = none ↔ t.2.1.isSome) ∧
          t = importSingleRes importOp it)
        yamls (import_apps_parallel importOp yamls) ∧
      List.Forall₂ (fun a t => t.1 = a ∧ ¬ (t.2.1.isSome ∧ t.2.2.isSome) ∧
          t = getSingleRes req a)
        app_ids (get_apps_info_parallel req app_ids) ∧
      List.Forall₂ (fun a t => t.1 = a ∧ ((t.2.1 = true) ↔ t.2.2 = none) ∧
          t = deleteSingleRes deleteOp a)
        app_ids (delete_apps_parallel deleteOp app_ids) := by
  refine ⟨⟨rfl, rfl, rfl, rfl⟩, ?_, ?_, ?_, ?_⟩
  · apply forall₂_map_self
    intro a _
    unfold exportSingleRes
    cases exportOp a <;> simp
  · apply forall₂_map_self
    intro it _
    unfold importSingleRes
    cases importOp it.2 <;> simp
  · apply forall₂_map_self
    intro a _
    unfold getSingleRes
    cases get_app req a with
    | ok r => simp
    | error e => simp
  · apply forall₂_map_self
    intro a _
    unfold deleteSingleRes
    cases deleteOp a <;> simp

/-- C1 amended witness: a two-item export batch where the second item's
operation raises records the failure in the second tuple only. -/
theorem c1_batch_results_amended_witness :
    List.Forall₂ (fun a t => t.1 = a ∧ (t.2.2 = none ↔ t.2.1.isSome) ∧
        t = exportSingleRes
          (fun i => if i = "bad" then Except.error (PyExn.other "boom") else Except.ok "yaml") a)
      ["good", "bad"]
      (export_apps_parallel
        (fun i => if i = "bad" then Except.error (PyExn.other "boom") else Except.ok "yaml")
        ["good", "bad"]) :=
  (c1_batch_results_amended
    (fun i => if i = "bad" then Except.error (PyExn.other "boom") else Except.ok "yaml")
    (fun _ => Except.ok (Json.obj [])) (fun _ => Except.ok (Json.obj []))
    (fun _ => Except.ok ()) ["good", "bad"] []).2.1

/-- C2: in every reachable state of a batch execution on a client with
`max_concurrency = C`, at most C requests are in flight; an acquire can only
happen while fewer than C are in flight (the semaphore is positive only
then); and after any request's completion step, any still-queued task has an
enabled acquire step (completion admits the next queued item). -/
theorem c2_semaphore_bound (C n : Nat) (s : BatchState) (h : BatchReachable C n s) :
    inFlightCount s ≤ C ∧ (0 < s.sem → inFlightCount s < C) ∧
      (∀ i, s.tasks.get? i = some Phase.inFlight →
        ∀ j, (s.tasks.set i Phase.done).get? j = some Phase.waiting →
          ∃ s2, BatchStep ⟨s.sem + 1, s.tasks.set i Phase.done⟩ s2) := by
  have hinv := reachable_inv h
  unfold batchInv at hinv
  refine ⟨by omega, fun hs => by omega, ?_⟩
  intro i hi j hj
  exact ⟨_, BatchStep.acquire ⟨s.sem + 1, s.tasks.set i Phase.done⟩ j hj (Nat.succ_pos _)⟩

/-- C2 witness: the freshly scheduled batch of 3 items under cap 2 satisfies
the bound. -/
theorem c2_semaphore_bound_witness :
    inFlightCount (initBatch 2 3) ≤ 2 ∧ (0 < (initBatch 2 3).sem → inFlightCount (initBatch 2 3) < 2) :=
  ⟨(c2_semaphore_bound 2 3 (initBatch 2 3) Relation.ReflTransGen.refl).1,
    (c2_semaphore_bound 2 3 (initBatch 2 3) Relation.ReflTransGen.refl).2.1⟩

end Dify
